import Mathlib

/-!
Verification of the krypin smart-home hub core, shallowly embedded from the
Rust sources (hub-core, automations, adapter-sdk, hubd).  Rust strings are
modelled as `List Char`, UUIDs as `Nat`, timestamps (`DateTime<Utc>`) as `Int`,
JSON values (`serde_json::Value`) as the inductive `Json` below (numbers are
restricted to integers, which covers every value the embedded code produces),
and hash maps as association lists.  Fallible operations return explicit
result types; a `todo!()` in the source is modelled by a dedicated `panics`
outcome.
-/

set_option autoImplicit false

namespace Krypin

/-- JSON values as produced and consumed by the embedded code.  Mirrors
`serde_json::Value` with integer-only numbers; objects are ordered field
lists (the embedded code only ever looks fields up by key). -/
inductive Json where
  | null : Json
  | bool (b : Bool) : Json
  | num (n : Int) : Json
  | str (s : String) : Json
  | arr (xs : List Json) : Json
  | obj (fields : List (String × Json)) : Json

/-- Structural boolean equality on JSON values (`PartialEq` on `Value`). -/
def Json.beq : Json → Json → Bool
  | .null, .null => true
  | .bool a, .bool b => a == b
  | .num a, .num b => a == b
  | .str a, .str b => a == b
  | .arr [], .arr [] => true
  | .arr (x :: xs), .arr (y :: ys) => Json.beq x y && Json.beq (.arr xs) (.arr ys)
  | .obj [], .obj [] => true
  | .obj ((k, v) :: fs), .obj ((l, w) :: gs) =>
      k == l && Json.beq v w && Json.beq (.obj fs) (.obj gs)
  | _, _ => false

/-- `Value::as_bool`. -/
def Json.asBool : Json → Option Bool
  | .bool b => some b
  | _ => none

/-- `Value::as_u64`: the number when it is a non-negative integer. -/
def Json.asU64 : Json → Option Nat
  | .num n => if 0 ≤ n then some n.toNat else none
  | _ => none

/-- `Value::as_str`. -/
def Json.asStr : Json → Option String
  | .str s => some s
  | _ => none

/-- `Value::as_array`. -/
def Json.asArr : Json → Option (List Json)
  | .arr xs => some xs
  | _ => none

/-- `Value::as_object`. -/
def Json.asObj : Json → Option (List (String × Json))
  | .obj fields => some fields
  | _ => none

/-- Field lookup on a JSON object representation (`Map::get`). -/
def objGet : List (String × Json) → String → Option Json
  | [], _ => none
  | (k, v) :: rest, key => if k = key then some v else objGet rest key

/-- `Value::get(key)`: field lookup, `none` on non-objects. -/
def jsonGet (j : Json) (key : String) : Option Json :=
  match j with
  | .obj fields => objGet fields key
  | _ => none

/-! ## Topic pattern matching

`topic_matches` appears verbatim in both `hub-core/src/bus.rs` and
`automations/src/lib.rs`; the two copies are identical, so one embedding
covers both. -/

/-- Strip `pre` from the front of `l` (helper for the suffix version). -/
def stripPre : List Char → List Char → Option (List Char)
  | l, [] => some l
  | [], _ :: _ => none
  | a :: l, b :: p => if a = b then stripPre l p else none

/-- Rust `str::strip_suffix`: `some r` with `l = r ++ suf` when `suf` is a
suffix of `l`, otherwise `none`. -/
def stripSuf (l suf : List Char) : Option (List Char) :=
  (stripPre l.reverse suf.reverse).map List.reverse

/-- Rust `str::starts_with`. -/
def isPreOf : List Char → List Char → Bool
  | [], _ => true
  | _ :: _, [] => false
  | a :: l, b :: m => a == b && isPreOf l m

/-- `topic_matches(pattern, topic)` from `hub-core/src/bus.rs:72` (and the
identical copy at `automations/src/lib.rs:352`). -/
def topic_matches (pattern topic : List Char) : Bool :=
  if pattern = ['*'] then true
  else if pattern = topic then true
  else
    match stripSuf pattern ['.', '*'] with
    | some pre => topic == pre || isPreOf (pre ++ ['.']) topic
    | none =>
      match stripSuf pattern ['*'] with
      | some pre => isPreOf pre topic
      | none => false

/-- The claim's characterization of the pattern language, written from the
spec's words: `"*"` matches everything; a pattern ending in `".*"` matches
exactly the prefix itself or prefix + `"."` + anything; a pattern ending in
`"*"` with no preceding dot matches any topic starting with the prefix; in
every other case only exact equality matches. -/
def specTopicMatches (pattern topic : List Char) : Prop :=
  pattern = ['*']
  ∨ (∃ pre, pattern = pre ++ ['.', '*'] ∧
      (topic = pre ∨ ∃ rest, topic = pre ++ '.' :: rest))
  ∨ (∃ pre, pattern = pre ++ ['*'] ∧ (¬ ∃ q, pre = q ++ ['.']) ∧
      ∃ rest, topic = pre ++ rest)
  ∨ ((¬ ∃ pre, pattern = pre ++ ['*']) ∧ topic = pattern)

theorem stripPre_eq_some (p : List Char) :
    ∀ (l r : List Char), stripPre l p = some r ↔ l = p ++ r := by
  induction p with
  | nil => intro l r; simp [stripPre]
  | cons b p ih =>
    intro l r
    cases l with
    | nil => simp [stripPre]
    | cons a l =>
      by_cases hab : a = b
      · simp [stripPre, hab, ih]
      · simp [stripPre, hab]

theorem stripSuf_eq_some (l suf r : List Char) :
    stripSuf l suf = some r ↔ l = r ++ suf := by
  constructor
  · intro h
    rcases Option.map_eq_some'.mp h with ⟨r', hr', hrev⟩
    have := (stripPre_eq_some suf.reverse l.reverse r').mp hr'
    subst hrev
    have : l.reverse.reverse = (suf.reverse ++ r').reverse := by rw [this]
    simpa using this
  · intro h
    subst h
    have : (r ++ suf).reverse = suf.reverse ++ r.reverse := by simp
    unfold stripSuf
    rw [this, (stripPre_eq_some suf.reverse (suf.reverse ++ r.reverse) r.reverse).mpr rfl]
    simp

theorem stripSuf_eq_none (l suf : List Char) :
    stripSuf l suf = none ↔ ¬ ∃ r, l = r ++ suf := by
  constructor
  · intro h ⟨r, hr⟩
    rw [(stripSuf_eq_some l suf r).mpr hr] at h
    exact Option.noConfusion h
  · intro h
    cases hs : stripSuf l suf with
    | none => rfl
    | some r => exact absurd ⟨r, (stripSuf_eq_some l suf r).mp hs⟩ h

theorem isPreOf_iff (l : List Char) :
    ∀ m : List Char, isPreOf l m = true ↔ ∃ r, m = l ++ r := by
  induction l with
  | nil => intro m; simp [isPreOf]
  | cons a l ih =>
    intro m
    cases m with
    | nil => simp [isPreOf]
    | cons b m =>
      by_cases hab : a = b
      · subst hab; simp [isPreOf, ih]
      · simp [isPreOf, hab, Ne.symm hab]

end Krypin

namespace Krypin

theorem stripSuf_dot_star_not_ends (p : List Char)
    (hs : stripSuf p ['.', '*'] = none) : ¬ ∃ q, p = q ++ ['.', '*'] :=
  (stripSuf_eq_none p ['.', '*']).mp hs

/-- C1: the pattern language of `topic_matches` is exactly as the spec
describes: `"*"` matches every topic; every pattern matches itself; and
`topic_matches p t` holds precisely when `p` is `"*"`, or `p` ends in `".*"`
and `t` is the prefix itself or prefix + `"."` + anything, or `p` ends in a
bare `"*"` (no preceding dot) and `t` starts with the prefix, or otherwise
`t` equals `p` exactly. -/
theorem C1_topic_matcher :
    (∀ t, topic_matches ['*'] t = true)
    ∧ (∀ p, topic_matches p p = true)
    ∧ (∀ p t, topic_matches p t = true ↔ specTopicMatches p t) := by
  refine ⟨fun t => by simp [topic_matches], fun p => ?_, fun p t => ?_⟩
  · by_cases h : p = ['*'] <;> simp [topic_matches, h]
  · by_cases h1 : p = ['*']
    · subst h1
      simp [topic_matches, specTopicMatches]
    · cases hs : stripSuf p ['.', '*'] with
      | some pre =>
        have hp : p = pre ++ ['.', '*'] := (stripSuf_eq_some _ _ _).mp hs
        have code : topic_matches p t = true ↔
            (t = pre ∨ ∃ rest, t = pre ++ '.' :: rest) := by
          by_cases hpt : p = t
          · simp only [topic_matches, if_neg h1, if_pos hpt]
            constructor
            · intro _
              right
              exact ⟨['*'], by rw [← hpt, hp]⟩
            · intro _; trivial
          · simp only [topic_matches, if_neg h1, if_neg hpt, hs]
            rw [Bool.or_eq_true, beq_iff_eq, isPreOf_iff]
            constructor
            · rintro (h | ⟨r, hr⟩)
              · exact Or.inl h
              · exact Or.inr ⟨r, by simpa using hr⟩
            · rintro (h | ⟨r, hr⟩)
              · exact Or.inl h
              · exact Or.inr ⟨r, by simpa using hr⟩
        rw [code]
        constructor
        · intro hd
          exact Or.inr (Or.inl ⟨pre, hp, hd⟩)
        · rintro (habs | ⟨pre', hp', hd⟩ | ⟨pre', hp', hnd, rest, ht⟩ | ⟨hne, ht⟩)
          · exact absurd habs h1
          · have : stripSuf p ['.', '*'] = some pre' := (stripSuf_eq_some _ _ _).mpr hp'
            rw [hs] at this
            cases this
            exact hd
          · have h2 : p = (pre ++ ['.']) ++ ['*'] := by simpa using hp
            have e1 : stripSuf p ['*'] = some (pre ++ ['.']) :=
              (stripSuf_eq_some _ _ _).mpr h2
            have e2 : stripSuf p ['*'] = some pre' := (stripSuf_eq_some _ _ _).mpr hp'
            rw [e1] at e2
            cases e2
            exact absurd ⟨pre, rfl⟩ hnd
          · exact absurd ⟨pre ++ ['.'], by simpa using hp⟩ hne
      | none =>
        have hne1 : ¬ ∃ r, p = r ++ ['.', '*'] := (stripSuf_eq_none _ _).mp hs
        cases hs2 : stripSuf p ['*'] with
        | some pre =>
          have hp : p = pre ++ ['*'] := (stripSuf_eq_some _ _ _).mp hs2
          have hnd : ¬ ∃ q, pre = q ++ ['.'] := by
            rintro ⟨q, hq⟩
            exact hne1 ⟨q, by simp [hp, hq]⟩
          have code : topic_matches p t = true ↔ ∃ r, t = pre ++ r := by
            by_cases hpt : p = t
            · simp only [topic_matches, if_neg h1, if_pos hpt]
              constructor
              · intro _
                exact ⟨['*'], by rw [← hpt, hp]⟩
              · intro _; trivial
            · simp only [topic_matches, if_neg h1, if_neg hpt, hs, hs2]
              rw [isPreOf_iff]
          rw [code]
          constructor
          · rintro ⟨r, hr⟩
            exact Or.inr (Or.inr (Or.inl ⟨pre, hp, hnd, r, hr⟩))
          · rintro (habs | ⟨pre', hp', hd⟩ | ⟨pre', hp', hnd', rest, ht⟩ | ⟨hne, ht⟩)
            · exact absurd habs h1
            · exact absurd ⟨pre', hp'⟩ hne1
            · have e2 : stripSuf p ['*'] = some pre' := (stripSuf_eq_some _ _ _).mpr hp'
              rw [hs2] at e2
              cases e2
              exact ⟨rest, ht⟩
            · exact absurd ⟨pre, hp⟩ hne
        | none =>
          have hne2 : ¬ ∃ r, p = r ++ ['*'] := (stripSuf_eq_none _ _).mp hs2
          have code : topic_matches p t = true ↔ p = t := by
            by_cases hpt : p = t
            · simp [topic_matches, if_neg h1, hpt]
            · simp [topic_matches, if_neg h1, hpt, hs, hs2]
          rw [code]
          constructor
          · intro hd
            exact Or.inr (Or.inr (Or.inr ⟨hne2, hd.symm⟩))
          · rintro (habs | ⟨pre', hp', hd⟩ | ⟨pre', hp', hnd', rest, ht⟩ | ⟨hne, ht⟩)
            · exact absurd habs h1
            · exact absurd ⟨pre' ++ ['.'], by simpa using hp'⟩ hne2
            · exact absurd ⟨pre', hp'⟩ hne2
            · exact ht.symm

end Krypin

namespace Krypin

/-! ## Data model (`hub-core/src/model.rs`) -/

/-- `EntityDomain` from `hub-core/src/model.rs`. -/
inductive EntityDomain where
  | light | switch | sensor | binarySensor | button | cover | fan
  | lock | mediaPlayer | climate | other

/-- `Area`: id and parent are `AreaId` (UUIDs, modelled as `Nat`). -/
structure Area where
  id : Nat
  name : String
  parent : Option Nat

/-- `Device` from `hub-core/src/model.rs`. -/
structure Device where
  id : Nat
  name : String
  adapter : String
  manufacturer : Option String
  model : Option String
  sw_version : Option String
  hw_version : Option String
  area : Option Nat
  metadata : List (String × Json)

/-- `Entity` from `hub-core/src/model.rs`. -/
structure Entity where
  id : Nat
  device_id : Nat
  name : String
  domain : EntityDomain
  icon : Option String
  key : Option String
  attributes : List (String × Json)

/-- `EntityState` from `hub-core/src/model.rs`; timestamps are `Int`. -/
structure EntityState where
  entity_id : Nat
  value : Json
  attributes : List (String × Json)
  last_changed : Int
  last_updated : Int
  source : Option String

/-! ## In-memory storage (`hub-core/src/storage.rs`, `InMemoryStorage`)

The four `HashMap`s of `Inner` are association lists keyed by id.  A
`todo!()` in the source is the `panics` outcome. -/

/-- `HashMap::insert`: replace the binding for `k` or append it. -/
def setKey {α : Type} : List (Nat × α) → Nat → α → List (Nat × α)
  | [], k, v => [(k, v)]
  | (k', v') :: rest, k, v =>
    if k' = k then (k, v) :: rest else (k', v') :: setKey rest k v

/-- `HashMap::get`. -/
def getKey? {α : Type} : List (Nat × α) → Nat → Option α
  | [], _ => none
  | (k', v') :: rest, k => if k' = k then some v' else getKey? rest k

/-- `HashMap::contains_key`. -/
def hasKey {α : Type} (m : List (Nat × α)) (k : Nat) : Bool :=
  (getKey? m k).isSome

/-- The `Inner` state behind `InMemoryStorage`'s `RwLock`. -/
structure StorageState where
  areas : List (Nat × Area)
  devices : List (Nat × Device)
  entities : List (Nat × Entity)
  states_by_entity : List (Nat × List EntityState)

/-- Outcome of a write that may hit a `todo!()`: success with the new state,
an error (from `anyhow!`) leaving the state unchanged, or a panic. -/
inductive WriteResult where
  | ok (st : StorageState)
  | err (st : StorageState) (msg : String)
  | panics

/-- Outcome of a write whose source contains no `todo!()`. -/
inductive OpResult where
  | ok (st : StorageState)
  | err (st : StorageState) (msg : String)

/-- `InMemoryStorage::upsert_area` (`storage.rs:126`): the `None` branch of
the match on `area.parent` is a literal `todo!()` in the source. -/
def upsert_area (st : StorageState) (area : Area) : WriteResult :=
  match area.parent with
  | some parent =>
    if hasKey st.areas parent then
      .ok { st with areas := setKey st.areas area.id area }
    else
      .err st ("parent area not found: " ++ toString parent)
  | none => .panics

/-- `InMemoryStorage::get_area`. -/
def get_area (st : StorageState) (id : Nat) : Option Area :=
  getKey? st.areas id

/-- `InMemoryStorage::upsert_device` (`storage.rs:150`): the `None` branch of
the match on `device.area` is a literal `todo!()` in the source. -/
def upsert_device (st : StorageState) (device : Device) : WriteResult :=
  match device.area with
  | some area =>
    if hasKey st.areas area then
      .ok { st with devices := setKey st.devices device.id device }
    else
      .err st ("area not found for device: " ++ toString area)
  | none => .panics

/-- `InMemoryStorage::get_device`. -/
def get_device (st : StorageState) (id : Nat) : Option Device :=
  getKey? st.devices id

/-- `InMemoryStorage::upsert_entity` (`storage.rs:174`). -/
def upsert_entity (st : StorageState) (entity : Entity) : OpResult :=
  if hasKey st.devices entity.device_id then
    .ok { st with entities := setKey st.entities entity.id entity }
  else
    .err st ("device not found for entity: " ++ toString entity.device_id)

/-- `InMemoryStorage::get_entity`. -/
def get_entity (st : StorageState) (id : Nat) : Option Entity :=
  getKey? st.entities id

/-- Insert a state into a list sorted by `last_changed`, before the first
record with a strictly greater key (so equal keys keep their order). -/
def insertState (s : EntityState) : List EntityState → List EntityState
  | [] => [s]
  | x :: xs =>
    if s.last_changed ≤ x.last_changed then s :: x :: xs else x :: insertState s xs

/-- Stable sort by `last_changed`, the effect of `entry.sort_by_key(|s|
s.last_changed)` (Rust's `sort_by_key` is stable, and a stable sort's output
is uniquely determined by its input). -/
def sortStates (l : List EntityState) : List EntityState :=
  l.foldr insertState []

/-- `InMemoryStorage::set_entity_state` (`storage.rs:188`): requires the
entity to exist, then pushes the record and re-sorts the entity's history by
`last_changed`. -/
def set_entity_state (st : StorageState) (state : EntityState) : OpResult :=
  if hasKey st.entities state.entity_id then
    let entry := (getKey? st.states_by_entity state.entity_id).getD []
    .ok { st with states_by_entity :=
            setKey st.states_by_entity state.entity_id (sortStates (entry ++ [state])) }
  else
    .err st ("entity not found: " ++ toString state.entity_id)

/-- `InMemoryStorage::latest_entity_state` (`storage.rs:199`): the last
element of the entity's (sorted) history. -/
def latest_entity_state (st : StorageState) (id : Nat) : Option EntityState :=
  match getKey? st.states_by_entity id with
  | some v => v.getLast?
  | none => none

/-- `InMemoryStorage::entity_state_history` (`storage.rs:204`): the stored
list, filtered by `last_changed >= since` when `since` is given, then with
the oldest records drained from the front so at most `limit` remain. -/
def entity_state_history (st : StorageState) (id : Nat)
    (since : Option Int) (limit : Nat) : List EntityState :=
  let list : List EntityState :=
    match getKey? st.states_by_entity id with
    | some v =>
      match since with
      | some since_ts => v.filter (fun s => since_ts ≤ s.last_changed)
      | none => v
    | none => []
  if limit < list.length then list.drop (list.length - limit) else list

/-! ## State-update subscriber (`hubd/src/subscribers/state.rs`) -/

/-- `StateUpdate` from `hub-core/src/bus_contract.rs`. -/
structure StateUpdate where
  entity_id : Nat
  value : Json
  attributes : List (String × Json)
  ts : Int
  source : Option String

/-- The record the state subscriber builds from a decoded `StateUpdate`
(`hubd/src/subscribers/state.rs:16`): `last_changed = last_updated = ts`. -/
def stateUpdateToEntityState (u : StateUpdate) : EntityState :=
  { entity_id := u.entity_id
    value := u.value
    attributes := u.attributes
    last_changed := u.ts
    last_updated := u.ts
    source := u.source }

end Krypin

namespace Krypin

/-! ## Automation engine (`automations/src/lib.rs`)

`Arc<dyn Storage>` is instantiated with the in-memory storage model above and
`Arc<dyn Bus>` with the in-memory bus (whose `publish` always succeeds, see
`inMemoryBus_publish` below); `Utc::now()` is a `now` parameter.  The
`store.list()` snapshot is the `List Automation` argument (hash-map iteration
order is arbitrary, so theorems quantify over the list). -/

/-- `Trigger` from `automations/src/lib.rs:57`. -/
inductive Trigger where
  | time (cron : String)
  | stateChange (entity_id : Nat) (fromV toV : Option Json)
  | mqttTopic (pattern : List Char)
  | heartbeat
  | manual

/-- `Condition` from `automations/src/lib.rs:67`. -/
inductive Condition where
  | always
  | entityStateEquals (entity_id : Nat) (value : Json)
  | payloadEquals (path : String) (value : Json)

/-- `Action` from `automations/src/lib.rs:75`. -/
inductive Action where
  | setEntityState (entity_id : Nat) (value : Json) (attributes : List (String × Json))
  | publishBusMessage (topic : List Char) (payload : Json)
  | log (message : String)

/-- `TriggerEvent` from `automations/src/lib.rs:93`. -/
inductive TriggerEvent where
  | timeFired (cron : String)
  | stateChanged (entity_id : Nat) (fromV : Option Json) (toV : Json)
  | mqttMessage (topic : List Char) (payload : Json)
  | heartbeat (ts : Int)
  | manual

/-- `AutomationDefinition` from `automations/src/lib.rs:42`. -/
structure Automation where
  id : Nat
  name : String
  description : Option String
  trigger : Trigger
  conditions : List Condition
  actions : List Action
  enabled : Bool
  created_at : Int
  updated_at : Int

/-- `serde_json`'s `parse_index` for JSON pointers: rejects a leading `+`
and leading zeros. -/
def parseIndex (s : String) : Option Nat :=
  if s.startsWith "+" || (s.startsWith "0" && s.length != 1) then none
  else s.toNat?

/-- Unescape one JSON-pointer token: `~1` → `/` then `~0` → `~`. -/
def unescapeToken (s : String) : String :=
  (s.replace "~1" "/").replace "~0" "~"

/-- Walk the remaining JSON-pointer tokens. -/
def jsonPointerGo : Json → List String → Option Json
  | j, [] => some j
  | j, tok :: rest =>
    let token := unescapeToken tok
    match j with
    | .obj fields =>
      match objGet fields token with
      | some v => jsonPointerGo v rest
      | none => none
    | .arr xs =>
      match parseIndex token with
      | some i =>
        match xs.get? i with
        | some v => jsonPointerGo v rest
        | none => none
      | none => none
    | _ => none

/-- `Value::pointer` (RFC 6901), as implemented by `serde_json`. -/
def Json.pointer (j : Json) (p : String) : Option Json :=
  if p = "" then some j
  else if ¬ p.startsWith "/" then none
  else jsonPointerGo j ((p.splitOn "/").drop 1)

/-- `trigger_matches` from `automations/src/lib.rs:321`. -/
def trigger_matches (trigger : Trigger) (event : TriggerEvent) : Bool :=
  match trigger, event with
  | .manual, .manual => true
  | .time cron, .timeFired ev => cron == ev
  | .stateChange entity_id fromV toV, .stateChanged ev old new =>
    if entity_id ≠ ev then false
    else
      let fromOk :=
        match fromV with
        | some expected =>
          match old with
          | some o => Json.beq o expected
          | none => false
        | none => true
      let toOk :=
        match toV with
        | some expected => Json.beq new expected
        | none => true
      fromOk && toOk
  | .mqttTopic pattern, .mqttMessage topic _ => topic_matches pattern topic
  | .heartbeat, .heartbeat _ => true
  | _, _ => false

/-- `AutomationEngine::condition_holds` (`automations/src/lib.rs:266`).  The
storage calls of the in-memory backend cannot fail, so the result is a plain
`Bool`. -/
def condition_holds (st : StorageState) (condition : Condition)
    (event : TriggerEvent) : Bool :=
  match condition with
  | .always => true
  | .entityStateEquals entity_id value =>
    match event with
    | .stateChanged ev_id _ toV =>
      if ev_id = entity_id then Json.beq toV value
      else
        match latest_entity_state st entity_id with
        | some s => Json.beq s.value value
        | none => false
    | _ =>
      match latest_entity_state st entity_id with
      | some s => Json.beq s.value value
      | none => false
  | .payloadEquals path value =>
    match event with
    | .mqttMessage _ payload =>
      match payload.pointer path with
      | some p => Json.beq p value
      | none => false
    | _ => false

/-- `AutomationEngine::conditions_hold`: every condition in order (the fold
short-circuits exactly like the source's early `return Ok(false)`). -/
def conditions_hold (st : StorageState) (conditions : List Condition)
    (event : TriggerEvent) : Bool :=
  conditions.all (fun c => condition_holds st c event)

/-- Engine-visible state: the storage plus the messages published on the
in-memory bus (publishing appends and always succeeds). -/
structure EngineState where
  storage : StorageState
  published : List (List Char × Json)

/-- `AutomationEngine::execute_action` (`automations/src/lib.rs:294`).
`SetEntityState` writes `last_changed = last_updated = now` with source
`"automation"`; `PublishBusMessage` JSON-encodes the payload (infallible for
`Value`) and publishes (always ok on the in-memory bus); `Log` only logs. -/
def execute_action (st : EngineState) (action : Action) (now : Int) :
    EngineState × Option String :=
  match action with
  | .setEntityState entity_id value attributes =>
    let s : EntityState :=
      { entity_id := entity_id
        value := value
        attributes := attributes
        last_changed := now
        last_updated := now
        source := some "automation" }
    match set_entity_state st.storage s with
    | .ok st' => ({ st with storage := st' }, none)
    | .err st' m => ({ st with storage := st' }, some m)
  | .publishBusMessage topic payload =>
    ({ st with published := st.published ++ [(topic, payload)] }, none)
  | .log _ => (st, none)

/-- `AutomationEngine::execute_actions` (`automations/src/lib.rs:287`): runs
the actions in order, stopping at (and returning) the first error. -/
def execute_actions : EngineState → List Action → Int → EngineState × Option String
  | st, [], _ => (st, none)
  | st, action :: rest, now =>
    match execute_action st action now with
    | (st', none) => execute_actions st' rest now
    | (st', some m) => (st', some m)

/-- `AutomationEngine::handle_event` (`automations/src/lib.rs:213`): iterate
over the enabled automations; for each whose trigger matches and whose
conditions hold, execute its actions — the `?` on `execute_actions`
propagates the first error out of the whole loop. -/
def handle_event : EngineState → List Automation → TriggerEvent → Int →
    EngineState × Option String
  | st, [], _, _ => (st, none)
  | st, a :: rest, event, now =>
    if a.enabled then
      if trigger_matches a.trigger event then
        if conditions_hold st.storage a.conditions event then
          match execute_actions st a.actions now with
          | (st', none) => handle_event st' rest event now
          | (st', some m) => (st', some m)
        else handle_event st rest event now
      else handle_event st rest event now
    else handle_event st rest event now

/-- `TestRun` from `automations/src/lib.rs:118`. -/
structure TestRun where
  automation_id : Nat
  executed : Bool
  reason : Option String

/-- Result of `test_automation`: `Ok(TestRun)` or a propagated action
error. -/
inductive TestOutcome where
  | ok (st : EngineState) (run : TestRun)
  | err (st : EngineState) (msg : String)

/-- `AutomationStore::get` on the in-memory store: lookup by id in the
snapshot. -/
def store_get (autos : List Automation) (id : Nat) : Option Automation :=
  autos.find? (fun a => a.id == id)

/-- `AutomationEngine::test_automation` (`automations/src/lib.rs:227`): note
that, unlike `handle_event`, it never consults `enabled`. -/
def test_automation (st : EngineState) (autos : List Automation) (id : Nat)
    (event : TriggerEvent) (now : Int) : TestOutcome :=
  match store_get autos id with
  | none => .ok st ⟨id, false, some "automation not found"⟩
  | some a =>
    if ¬ trigger_matches a.trigger event then
      .ok st ⟨id, false, some "trigger did not match"⟩
    else if ¬ conditions_hold st.storage a.conditions event then
      .ok st ⟨id, false, some "conditions failed"⟩
    else
      match execute_actions st a.actions now with
      | (st', none) => .ok st' ⟨id, true, none⟩
      | (st', some m) => .err st' m

end Krypin

namespace Krypin

/-! ## Capability model (`hub-core/src/cap/*.rs`)

Feature sets are `bitflags` over `u32`, modelled as `Nat` masks;
`contains` is `(features & bits) == bits`.  HVAC temperatures are `f32`
values used only through comparisons, modelled as `ℚ`. -/

/-- `bitflags` `contains`: all of `bits` present in `features`. -/
def containsBits (features bits : Nat) : Bool :=
  features &&& bits == bits

def LIGHT_ONOFF : Nat := 1
def LIGHT_DIMMABLE : Nat := 2
def LIGHT_COLOR_TEMP : Nat := 4
def LIGHT_RGB : Nat := 8

/-- `Rgb` from `hub-core/src/cap/light.rs` (components are `u8`). -/
structure Rgb where
  r : Nat
  g : Nat
  b : Nat
deriving DecidableEq

/-- `LightDescription` (mireds are `u16`). -/
structure LightDescription where
  entity_id : Nat
  features : Nat
  min_mireds : Option Nat
  max_mireds : Option Nat

/-- `LightCommand` from `hub-core/src/cap/light.rs:58` (brightness is a `u8`
normalized to 0..=100, mireds a `u16`, transitions `u32` milliseconds). -/
inductive LightCommand where
  | setPower (onV : Bool)
  | toggle
  | setBrightness (level : Nat) (transition_ms : Option Nat)
  | setColorTemp (mireds : Nat) (transition_ms : Option Nat)
  | setRgb (rgb : Rgb) (transition_ms : Option Nat)
deriving DecidableEq

/-- `LightDescription::validate` (`hub-core/src/cap/light.rs:67`). -/
def LightDescription.validate (d : LightDescription) (cmd : LightCommand) :
    Except String Unit :=
  match cmd with
  | .setPower _ | .toggle =>
    if containsBits d.features LIGHT_ONOFF then .ok () else .error "on/off unsupported"
  | .setBrightness _ _ =>
    if containsBits d.features LIGHT_DIMMABLE then .ok () else .error "dimming unsupported"
  | .setColorTemp _ _ =>
    if containsBits d.features LIGHT_COLOR_TEMP then .ok ()
    else .error "color temp unsupported"
  | .setRgb _ _ =>
    if containsBits d.features LIGHT_RGB then .ok () else .error "rgb unsupported"

def SWITCH_ONOFF : Nat := 1
def SWITCH_TOGGLE : Nat := 2
def SWITCH_STATELESS : Nat := 4
def SWITCH_POWER_METER : Nat := 8

/-- `SwitchDescription` from `hub-core/src/cap/switch.rs`. -/
structure SwitchDescription where
  entity_id : Nat
  features : Nat

/-- `SwitchCommand` from `hub-core/src/cap/switch.rs:32`. -/
inductive SwitchCommand where
  | set (onV : Bool)
  | toggle
deriving DecidableEq

/-- `SwitchDescription::validate` (`hub-core/src/cap/switch.rs:38`). -/
def SwitchDescription.validate (d : SwitchDescription) (cmd : SwitchCommand) :
    Except String Unit :=
  match cmd with
  | .set _ =>
    if containsBits d.features SWITCH_ONOFF then .ok () else .error "on/off unsupported"
  | .toggle =>
    if containsBits d.features SWITCH_TOGGLE then .ok () else .error "toggle unsupported"

def HVAC_ONOFF : Nat := 1
def HVAC_TARGET_TEMPERATURE : Nat := 2
def HVAC_FAN_MODES : Nat := 4
def HVAC_MODES : Nat := 8

/-- `HvacMode` from `hub-core/src/cap/hvac.rs`. -/
inductive HvacMode where
  | off | heat | cool | auto | dry | fanOnly
deriving DecidableEq

/-- `HvacFanMode` from `hub-core/src/cap/hvac.rs`. -/
inductive HvacFanMode where
  | auto | low | medium | high | turbo | quiet
deriving DecidableEq

/-- `HvacDescription`; `f32` temperatures are modelled as `ℚ` (they are only
ever compared, and `<` on non-NaN floats agrees with the order of the
represented rationals). -/
structure HvacDescription where
  entity_id : Nat
  features : Nat
  min_temp : Option ℚ
  max_temp : Option ℚ

/-- `HvacCommand` from `hub-core/src/cap/hvac.rs:61`. -/
inductive HvacCommand where
  | setMode (mode : HvacMode)
  | setTargetTemperature (temperature : ℚ)
  | setFanMode (fan_mode : HvacFanMode)

/-- `HvacDescription::validate` (`hub-core/src/cap/hvac.rs:68`). -/
def HvacDescription.validate (d : HvacDescription) (cmd : HvacCommand) :
    Except String Unit :=
  match cmd with
  | .setMode mode =>
    if containsBits d.features HVAC_MODES then
      if mode = .off ∧ ¬ containsBits d.features HVAC_ONOFF then
        .error "on/off unsupported"
      else .ok ()
    else .error "modes unsupported"
  | .setTargetTemperature temperature =>
    if ¬ containsBits d.features HVAC_TARGET_TEMPERATURE then
      .error "temperature unsupported"
    else
      match d.min_temp with
      | some min => if temperature < min then .error "temperature below minimum" else
        match d.max_temp with
        | some max => if max < temperature then .error "temperature above maximum" else .ok ()
        | none => .ok ()
      | none =>
        match d.max_temp with
        | some max => if max < temperature then .error "temperature above maximum" else .ok ()
        | none => .ok ()
  | .setFanMode _ =>
    if containsBits d.features HVAC_FAN_MODES then .ok () else .error "fan modes unsupported"

def VAC_START : Nat := 1
def VAC_PAUSE : Nat := 2
def VAC_STOP : Nat := 4
def VAC_DOCK : Nat := 8
def VAC_LOCATE : Nat := 16
def VAC_SPOT : Nat := 32

/-- `RobotVacDescription` from `hub-core/src/cap/robotvac.rs`. -/
structure RobotVacDescription where
  entity_id : Nat
  features : Nat

/-- `RobotVacCommand` from `hub-core/src/cap/robotvac.rs:46`. -/
inductive RobotVacCommand where
  | start
  | pause
  | stop
  | dock
  | locate
  | spotClean
deriving DecidableEq

/-- The `requires` match in `RobotVacDescription::validate`
(`hub-core/src/cap/robotvac.rs:57`). -/
def robotVacRequires : RobotVacCommand → Nat
  | .start => VAC_START
  | .pause => VAC_PAUSE
  | .stop => VAC_STOP
  | .dock => VAC_DOCK
  | .locate => VAC_LOCATE
  | .spotClean => VAC_SPOT

/-- `RobotVacDescription::validate` (`hub-core/src/cap/robotvac.rs:56`). -/
def RobotVacDescription.validate (d : RobotVacDescription)
    (cmd : RobotVacCommand) : Except String Unit :=
  if containsBits d.features (robotVacRequires cmd) then .ok ()
  else .error "command unsupported"

/-! ## Canonical command envelopes and the command mappers

`impl From<...Command> for CommandSet` in `hub-core/src/cap/*.rs` produces
the canonical envelope; the adapter SDK parses the envelope's JSON back with
`...CommandMapper::from_json` (`adapter-sdk/src/{light,switch,robotvac}.rs`).
The envelope travels as serialized JSON, so lifting goes through the JSON
form of the `CommandSet`. -/

/-- `CommandSet` from `hub-core/src/bus_contract.rs:56`. -/
structure CommandSet where
  action : String
  value : Json
  correlation_id : Option Nat

/-- `serde_json::json!` rendering of an optional integer. -/
def jsonOfOptNat : Option Nat → Json
  | some n => .num n
  | none => .null

/-- The JSON a serialized `CommandSet` decodes back to (serde maps are
`BTreeMap`s, hence the sorted key order; `correlation_id: None` serializes as
`null`). -/
def CommandSet.toJson (c : CommandSet) : Json :=
  .obj [("action", .str c.action),
        ("correlation_id", jsonOfOptNat c.correlation_id),
        ("value", c.value)]

/-- `impl From<LightCommand> for CommandSet` (`hub-core/src/cap/light.rs:189`). -/
def lightCommandToCommandSet : LightCommand → CommandSet
  | .setPower onV => ⟨"set", .obj [("on", .bool onV)], none⟩
  | .toggle => ⟨"toggle", .null, none⟩
  | .setBrightness level t =>
    ⟨"set", .obj [("brightness", .num level), ("transition_ms", jsonOfOptNat t)], none⟩
  | .setColorTemp mireds t =>
    ⟨"set", .obj [("mireds", .num mireds), ("transition_ms", jsonOfOptNat t)], none⟩
  | .setRgb rgb t =>
    ⟨"set", .obj [("rgb", .arr [.num rgb.r, .num rgb.g, .num rgb.b]),
                  ("transition_ms", jsonOfOptNat t)], none⟩

/-- `impl From<SwitchCommand> for CommandSet` (`hub-core/src/cap/switch.rs:101`). -/
def switchCommandToCommandSet : SwitchCommand → CommandSet
  | .set onV => ⟨"set", .obj [("on", .bool onV)], none⟩
  | .toggle => ⟨"toggle", .null, none⟩

/-- `impl From<RobotVacCommand> for CommandSet` (`hub-core/src/cap/robotvac.rs:122`). -/
def robotVacCommandToCommandSet : RobotVacCommand → CommandSet
  | .start => ⟨"start", .null, none⟩
  | .pause => ⟨"pause", .null, none⟩
  | .stop => ⟨"stop", .null, none⟩
  | .dock => ⟨"dock", .null, none⟩
  | .locate => ⟨"locate", .null, none⟩
  | .spotClean => ⟨"spot_clean", .null, none⟩

/-- The four key probes inside the `if let Some(obj) = val.as_object()` block
of `LightCommandMapper::from_json` (`adapter-sdk/src/light.rs:160-192`); a
hit returns early, otherwise control falls through to the boolean probe.
`u8::try_from(n).unwrap_or(100).min(100)` clamps the brightness; `as u16` /
`as u32` / `as u8` casts truncate. -/
def lightObjParse (fields : List (String × Json)) : Option LightCommand :=
  match (objGet fields "on").bind Json.asBool with
  | some b => some (.setPower b)
  | none =>
    match (objGet fields "brightness").bind Json.asU64 with
    | some n =>
      let level := Nat.min (if n ≤ 255 then n else 100) 100
      let trans := ((objGet fields "transition_ms").bind Json.asU64).map (· % 2 ^ 32)
      some (.setBrightness level trans)
    | none =>
      match (objGet fields "mireds").bind Json.asU64 with
      | some n =>
        let trans := ((objGet fields "transition_ms").bind Json.asU64).map (· % 2 ^ 32)
        some (.setColorTemp (n % 2 ^ 16) trans)
      | none =>
        match (objGet fields "rgb").bind Json.asArr with
        | some xs =>
          if xs.length = 3 then
            let r := (((xs.get? 0).bind Json.asU64).getD 0) % 2 ^ 8
            let g := (((xs.get? 1).bind Json.asU64).getD 0) % 2 ^ 8
            let b := (((xs.get? 2).bind Json.asU64).getD 0) % 2 ^ 8
            let trans := ((objGet fields "transition_ms").bind Json.asU64).map (· % 2 ^ 32)
            some (.setRgb ⟨r, g, b⟩ trans)
          else none
        | none => none

/-- `LightCommandMapper::from_json` (`adapter-sdk/src/light.rs:154`). -/
def lightCommandFromJson (v : Json) : Except String LightCommand :=
  let action := ((jsonGet v "action").bind Json.asStr).getD "set"
  let val := jsonGet v "value"
  if action = "toggle" then .ok .toggle
  else
    match val.bind Json.asObj with
    | some fields =>
      match lightObjParse fields with
      | some cmd => .ok cmd
      | none =>
        match val.bind Json.asBool with
        | some b => .ok (.setPower b)
        | none => .error "unsupported light command payload"
    | none =>
      match val.bind Json.asBool with
      | some b => .ok (.setPower b)
      | none => .error "unsupported light command payload"

/-- `SwitchCommandMapper::from_json` (`adapter-sdk/src/switch.rs:122`): a
top-level `on`, then `value.on`, then a bare boolean `value`. -/
def switchCommandFromJson (v : Json) : Except String SwitchCommand :=
  let action := ((jsonGet v "action").bind Json.asStr).getD "set"
  let raw_value := jsonGet v "value"
  if action = "toggle" then .ok .toggle
  else
    match (jsonGet v "on").bind Json.asBool with
    | some b => .ok (.set b)
    | none =>
      match (raw_value.bind Json.asObj).bind (fun fields => objGet fields "on")
          |>.bind Json.asBool with
      | some b => .ok (.set b)
      | none =>
        match raw_value.bind Json.asBool with
        | some b => .ok (.set b)
        | none => .error "unsupported switch command payload"

/-- `RobotVacCommandMapper::from_json` (`adapter-sdk/src/robotvac.rs:120`):
pure dispatch on the `action` string, defaulting to `"start"`. -/
def robotVacCommandFromJson (v : Json) : Except String RobotVacCommand :=
  let action := ((jsonGet v "action").bind Json.asStr).getD "start"
  if action = "start" then .ok .start
  else if action = "pause" then .ok .pause
  else if action = "stop" then .ok .stop
  else if action = "dock" then .ok .dock
  else if action = "locate" then .ok .locate
  else if action = "spot_clean" then .ok .spotClean
  else .error "unsupported robot vacuum command"

/-! ## In-memory bus (`hub-core/src/bus.rs`, `InMemoryBus`) -/

/-- `tokio::sync::broadcast::Sender::send`: errors when there is no active
receiver, otherwise reports the receiver count. -/
def broadcast_send (receivers : Nat) : Except String Nat :=
  if receivers = 0 then .error "channel closed" else .ok receivers

/-- `InMemoryBus::publish` (`hub-core/src/bus.rs:50`): the result of the
broadcast send is discarded (`let _ = ...`) and `Ok(())` is returned. -/
def inMemoryBus_publish (receivers : Nat) (topic : List Char)
    (payload : List Nat) : Except String Unit :=
  let _ := (topic, payload)
  let _ := broadcast_send receivers
  .ok ()

end Krypin

namespace Krypin

/-! ## Shared helper lemmas and concrete fixtures -/

theorem getKey?_setKey_self {α : Type} (m : List (Nat × α)) (k : Nat) (v : α) :
    getKey? (setKey m k v) k = some v := by
  induction m with
  | nil => simp [setKey, getKey?]
  | cons kv rest ih =>
    obtain ⟨k', v'⟩ := kv
    by_cases h : k' = k
    · simp [setKey, getKey?, h]
    · simp [setKey, getKey?, h, ih]

theorem hasKey_setKey_self {α : Type} (m : List (Nat × α)) (k : Nat) (v : α) :
    hasKey (setKey m k v) k = true := by
  simp [hasKey, getKey?_setKey_self]

theorem insertState_concat (x s : EntityState) (m : List EntityState)
    (h : x.last_changed ≤ s.last_changed) :
    insertState x (m ++ [s]) = insertState x m ++ [s] := by
  induction m with
  | nil => simp [insertState, h]
  | cons y m ih =>
    by_cases hxy : x.last_changed ≤ y.last_changed
    · simp [insertState, hxy]
    · simp [insertState, hxy, ih]

theorem sortStates_concat (l : List EntityState) (s : EntityState)
    (h : ∀ r ∈ l, r.last_changed ≤ s.last_changed) :
    sortStates (l ++ [s]) = sortStates l ++ [s] := by
  induction l with
  | nil => rfl
  | cons x l ih =>
    have hx : x.last_changed ≤ s.last_changed := h x (by simp)
    have hl : ∀ r ∈ l, r.last_changed ≤ s.last_changed := fun r hr => h r (by simp [hr])
    show insertState x (sortStates (l ++ [s])) = insertState x (sortStates l) ++ [s]
    rw [ih hl, insertState_concat x s _ hx]

/-- The state produced by a successful `set_entity_state st s` (push onto the
entity's history, then re-sort). -/
def appendEntityState (st : StorageState) (s : EntityState) : StorageState :=
  let entry := (getKey? st.states_by_entity s.entity_id).getD []
  let sorted := sortStates (entry ++ [s])
  { st with states_by_entity := setKey st.states_by_entity s.entity_id sorted }

/-- The empty in-memory storage (`InMemoryStorage::default()`). -/
def emptyStorage : StorageState := ⟨[], [], [], []⟩

/-- A registered entity used by the concrete storage scenarios. -/
def demoEntity : Entity :=
  { id := 1, device_id := 2, name := "sensor", domain := .sensor,
    icon := none, key := none, attributes := [] }

/-- Storage that already contains `demoEntity` (so state writes succeed). -/
def oneEntityStorage : StorageState := ⟨[], [], [(1, demoEntity)], []⟩

/-! ## C10 -/

/-- C10: `InMemoryBus::publish` is total and never reports failure — it
returns `Ok(())` for every topic, payload and receiver count, including zero
active subscribers (where the underlying `broadcast_send` would error, but
that error is discarded). -/
theorem C10_publish_total :
    (∀ receivers topic payload,
        inMemoryBus_publish receivers topic payload = .ok ())
    ∧ broadcast_send 0 = .error "channel closed" := by
  exact ⟨fun _ _ _ => rfl, rfl⟩

/-! ## C3 -/

/-- An area with no parent, as in the claim. -/
def c3Area : Area := { id := 1, name := "living room", parent := none }

/-- A device with no area, as in the claim. -/
def c3Device : Device :=
  { id := 2, name := "lamp", adapter := "mqtt", manufacturer := none,
    model := none, sw_version := none, hw_version := none, area := none,
    metadata := [] }

/-- C3: evaluating the code at the claim's inputs: `upsert_area` with
`parent = None` and `upsert_device` with `area = None` both hit the
`todo!()` branch and panic instead of succeeding — the code contradicts the
claim (and the spec says not to replicate the crash). -/
theorem C3_upsert_none_panics :
    upsert_area emptyStorage c3Area = .panics
    ∧ upsert_device emptyStorage c3Device = .panics :=
  ⟨rfl, rfl⟩

/-! ## C5 -/

/-- Older state record (`last_changed = last_updated = 5`). -/
def c5sOld : EntityState := ⟨1, .num 5, [], 5, 5, none⟩

/-- Newer state record (`last_changed = last_updated = 10`). -/
def c5sNew : EntityState := ⟨1, .num 10, [], 10, 10, none⟩

/-- C5: evaluating the code at the failing input: after storing records with
timestamps 10 and 5 for entity 1, `entity_state_history` returns them oldest
first (`[5, 10]`), not most recent first as the claim (and the Postgres
implementation, whose own test asserts descending order) requires. -/
theorem C5_history_oldest_first :
    ∃ st1 st2,
      set_entity_state oneEntityStorage c5sNew = .ok st1
      ∧ set_entity_state st1 c5sOld = .ok st2
      ∧ (entity_state_history st2 1 none 10).map (fun s => s.last_updated)
          = [5, 10] :=
  ⟨_, _, rfl, rfl, rfl⟩

/-! ## C4 -/

/-- A record whose `last_changed` (10) and `last_updated` (1) differ. -/
def c4Skewed : EntityState := ⟨1, .bool true, [], 10, 1, none⟩

/-- A later `StateUpdate` with timestamp 5. -/
def c4Update : StateUpdate := ⟨1, .bool false, [], 5, none⟩

/-- C4: counterexample.  Store `c4Skewed` (`last_changed = 10`,
`last_updated = 1`), then process a `StateUpdate` with `ts = 5` (stored as
`last_changed = last_updated = 5`).  Both writes succeed, yet
`latest_entity_state` returns the record with `last_updated = 1`: not the
stored record with the greatest `last_updated` (which is 5), and not equal to
the just-processed timestamp `ts = 5` either — the claim fails on both
counts at this input. -/
theorem C4_latest_cex :
    ∃ st1 st2,
      set_entity_state oneEntityStorage c4Skewed = .ok st1
      ∧ set_entity_state st1 (stateUpdateToEntityState c4Update) = .ok st2
      ∧ (latest_entity_state st2 1).map (fun r => r.last_updated) = some 1
      ∧ ((getKey? st2.states_by_entity 1).getD []).map (fun r => r.last_updated)
          = [5, 1]
      ∧ c4Update.ts = 5
      ∧ (1 : Int) ≠ 5 :=
  ⟨_, _, rfl, rfl, rfl, rfl, rfl, by decide⟩

/-- C4 (amended): `latest_entity_state` returns the last record of the
history as sorted stably by `last_changed`.  Consequently, when a record's
`last_changed` is at least that of every record already stored for its
entity — in particular when a `StateUpdate`'s `ts` is the newest — a
successful `set_entity_state` makes exactly that record the latest, so
`latest_entity_state(entity_id).last_updated` equals its `last_updated`
(= `ts` for a `StateUpdate`). -/
theorem C4_latest_amended :
    (∀ (st : StorageState) (s : EntityState),
        hasKey st.entities s.entity_id = true →
        (∀ r ∈ (getKey? st.states_by_entity s.entity_id).getD [],
            r.last_changed ≤ s.last_changed) →
        ∃ st', set_entity_state st s = .ok st'
          ∧ latest_entity_state st' s.entity_id = some s)
    ∧ (∀ (st : StorageState) (u : StateUpdate),
        hasKey st.entities u.entity_id = true →
        (∀ r ∈ (getKey? st.states_by_entity u.entity_id).getD [],
            r.last_changed ≤ u.ts) →
        ∃ st', set_entity_state st (stateUpdateToEntityState u) = .ok st'
          ∧ (latest_entity_state st' u.entity_id).map (fun r => r.last_updated)
              = some u.ts) := by
  have core : ∀ (st : StorageState) (s : EntityState),
      hasKey st.entities s.entity_id = true →
      (∀ r ∈ (getKey? st.states_by_entity s.entity_id).getD [],
          r.last_changed ≤ s.last_changed) →
      ∃ st', set_entity_state st s = .ok st'
        ∧ latest_entity_state st' s.entity_id = some s := by
    intro st s he hall
    refine ⟨appendEntityState st s, ?_, ?_⟩
    · simp [set_entity_state, appendEntityState, he]
    · simp only [appendEntityState, latest_entity_state, getKey?_setKey_self,
        sortStates_concat _ _ hall]
      simp
  refine ⟨core, fun st u he hall => ?_⟩
  obtain ⟨st', hok, hlat⟩ := core st (stateUpdateToEntityState u) he hall
  refine ⟨st', hok, ?_⟩
  rw [show latest_entity_state st' u.entity_id
      = some (stateUpdateToEntityState u) from hlat]
  rfl

/-- C4 (amended) witness: on storage holding entity 1 with empty history,
writing a record timestamped 3 succeeds and becomes the latest state. -/
theorem C4_latest_amended_witness :
    hasKey oneEntityStorage.entities 1 = true
    ∧ ∃ st', set_entity_state oneEntityStorage ⟨1, .bool true, [], 3, 3, none⟩ = .ok st'
        ∧ latest_entity_state st' 1 = some ⟨1, .bool true, [], 3, 3, none⟩ :=
  ⟨rfl, C4_latest_amended.1 oneEntityStorage ⟨1, .bool true, [], 3, 3, none⟩ rfl
    (by intro r hr; simp [oneEntityStorage, getKey?] at hr)⟩

end Krypin

namespace Krypin

/-! ## C2 -/

/-- Engine state with nothing stored and nothing published. -/
def engineState0 : EngineState := ⟨emptyStorage, []⟩

/-- An enabled automation whose single action fails: it sets state for entity
42, which does not exist in storage. -/
def c2FailAuto : Automation :=
  ⟨1, "failing", none, .manual, [], [.setEntityState 42 (.bool true) []], true, 0, 0⟩

/-- An enabled sibling automation that also matches `Manual` and would
publish a bus message. -/
def c2SiblingAuto : Automation :=
  ⟨2, "sibling", none, .manual, [], [.publishBusMessage ['t'] (.bool true)], true, 0, 0⟩

/-- C2: counterexample.  With two enabled automations that both match the
`Manual` event, the first one's failing action makes `handle_event` return
the error immediately: nothing is published, so the sibling automation's
action was never executed — even though, run on its own, the sibling would
have published its message. -/
theorem C2_sibling_abort_cex :
    handle_event engineState0 [c2FailAuto, c2SiblingAuto] .manual 0
      = (engineState0, some ("entity not found: " ++ toString 42))
    ∧ (handle_event engineState0 [c2FailAuto, c2SiblingAuto] .manual 0).1.published = []
    ∧ handle_event engineState0 [c2SiblingAuto] .manual 0
      = (⟨emptyStorage, [(['t'], .bool true)]⟩, none) :=
  ⟨rfl, rfl, rfl⟩

/-- C2 (amended): a failing action aborts the remaining actions of its own
automation (fail-fast) *and* aborts handling of every automation that comes
after it in the engine's iteration order: `handle_event` returns the error as
soon as the first matching automation's actions fail, so later siblings are
not evaluated (automations processed before the failure have already run). -/
theorem C2_failfast_amended :
    (∀ (st : EngineState) (a : Automation) (rest : List Automation)
        (event : TriggerEvent) (now : Int) (st' : EngineState) (msg : String),
        a.enabled = true →
        trigger_matches a.trigger event = true →
        conditions_hold st.storage a.conditions event = true →
        execute_actions st a.actions now = (st', some msg) →
        handle_event st (a :: rest) event now = (st', some msg))
    ∧ (∀ (st : EngineState) (action : Action) (rest : List Action) (now : Int)
        (st' : EngineState) (msg : String),
        execute_action st action now = (st', some msg) →
        execute_actions st (action :: rest) now = (st', some msg)) := by
  constructor
  · intro st a rest event now st' msg he ht hc hx
    simp [handle_event, he, ht, hc, hx]
  · intro st action rest now st' msg hx
    simp [execute_actions, hx]

/-- C2 (amended) witness: the failing automation alone, at the concrete
engine state: `handle_event` surfaces the storage error. -/
theorem C2_failfast_amended_witness :
    handle_event engineState0 [c2FailAuto] .manual 0
      = (engineState0, some ("entity not found: " ++ toString 42)) :=
  C2_failfast_amended.1 engineState0 c2FailAuto [] .manual 0 engineState0
    ("entity not found: " ++ toString 42) rfl rfl rfl rfl

/-! ## C6 -/

/-- A disabled automation with a matching trigger and a publish action. -/
def c6DisabledAuto : Automation :=
  ⟨1, "night scene", none, .manual, [], [.publishBusMessage ['t'] (.bool true)], false, 0, 0⟩

/-- C6: counterexample.  `test_automation` never consults `enabled`: invoked
on the disabled automation with a matching trigger event, the engine executes
its action (the message is published) and reports `executed = true`. -/
theorem C6_disabled_cex :
    test_automation engineState0 [c6DisabledAuto] 1 .manual 0
      = .ok ⟨emptyStorage, [(['t'], .bool true)]⟩ ⟨1, true, none⟩
    ∧ c6DisabledAuto.enabled = false :=
  ⟨rfl, rfl⟩

/-- C6 (amended): a disabled automation never runs when the engine handles a
trigger event — `handle_event` is unchanged by removing the disabled
automations — but the `test_automation` entry point ignores the `enabled`
flag: for a disabled automation whose trigger and conditions match, it
executes the actions all the same. -/
theorem C6_disabled_amended :
    (∀ (st : EngineState) (autos : List Automation) (event : TriggerEvent) (now : Int),
        handle_event st autos event now
          = handle_event st (autos.filter (fun a => a.enabled)) event now)
    ∧ (∀ (st : EngineState) (a : Automation) (event : TriggerEvent) (now : Int),
        a.enabled = false →
        trigger_matches a.trigger event = true →
        conditions_hold st.storage a.conditions event = true →
        test_automation st [a] a.id event now
          = (match execute_actions st a.actions now with
             | (st', none) => .ok st' ⟨a.id, true, none⟩
             | (st', some m) => .err st' m)) := by
  constructor
  · intro st autos event now
    induction autos generalizing st with
    | nil => rfl
    | cons a rest ih =>
      by_cases he : a.enabled = true
      · by_cases ht : trigger_matches a.trigger event = true
        · by_cases hc : conditions_hold st.storage a.conditions event = true
          · simp only [List.filter_cons, he, if_true, handle_event, ht, hc]
            cases hx : execute_actions st a.actions now with
            | mk st' m =>
              cases m with
              | none => exact ih st'
              | some msg => rfl
          · simp only [List.filter_cons, he, if_true, handle_event, ht, hc]
            simp only [if_false, Bool.false_eq_true, reduceIte]
            exact ih st
        · simp only [List.filter_cons, he, if_true, handle_event, ht]
          simp only [Bool.false_eq_true, reduceIte]
          exact ih st
      · have he' : a.enabled = false := by
          cases h : a.enabled
          · rfl
          · exact absurd h he
        simp only [List.filter_cons, he', Bool.false_eq_true, reduceIte, handle_event]
        exact ih st
  · intro st a event now _ ht hc
    have hfind : store_get [a] a.id = some a := by
      simp [store_get, List.find?]
    simp [test_automation, hfind, ht, hc]

/-- C6 (amended) witness: at the concrete disabled automation, the
`test_automation` branch of the theorem applies and executes the action. -/
theorem C6_disabled_amended_witness :
    test_automation engineState0 [c6DisabledAuto] c6DisabledAuto.id .manual 0
      = (match execute_actions engineState0 c6DisabledAuto.actions 0 with
         | (st', none) => .ok st' ⟨c6DisabledAuto.id, true, none⟩
         | (st', some m) => .err st' m) :=
  C6_disabled_amended.2 engineState0 c6DisabledAuto .manual 0 rfl rfl rfl

/-! ## C7 -/

/-- C7: referential integrity on writes.  `upsert_device` with an absent area
fails leaving storage unchanged, and succeeds on the same input after a
successful `upsert_area` of that area; `upsert_area` with an absent parent
fails; `upsert_entity` with an absent device fails; `set_entity_state` with
an absent entity fails — each returning the untouched state. -/
theorem C7_referential_integrity :
    (∀ (st : StorageState) (d : Device) (aid : Nat),
        d.area = some aid → hasKey st.areas aid = false →
        ∃ m, upsert_device st d = .err st m)
    ∧ (∀ (st st1 : StorageState) (ar : Area) (d : Device),
        upsert_area st ar = .ok st1 → d.area = some ar.id →
        ∃ st2, upsert_device st1 d = .ok st2)
    ∧ (∀ (st : StorageState) (ar : Area) (pid : Nat),
        ar.parent = some pid → hasKey st.areas pid = false →
        ∃ m, upsert_area st ar = .err st m)
    ∧ (∀ (st : StorageState) (en : Entity),
        hasKey st.devices en.device_id = false →
        ∃ m, upsert_entity st en = .err st m)
    ∧ (∀ (st : StorageState) (s : EntityState),
        hasKey st.entities s.entity_id = false →
        ∃ m, set_entity_state st s = .err st m) := by
  refine ⟨?_, ?_, ?_, ?_, ?_⟩
  · intro st d aid hda hno
    exact ⟨"area not found for device: " ++ toString aid,
      by simp [upsert_device, hda, hno]⟩
  · intro st st1 ar d hok hda
    cases hp : ar.parent with
    | none => simp [upsert_area, hp] at hok
    | some pid =>
      by_cases hk : hasKey st.areas pid = true
      · have hst1 : st1 = { st with areas := setKey st.areas ar.id ar } := by
          simp [upsert_area, hp, hk] at hok
          exact hok.symm
        refine ⟨{ st1 with devices := setKey st1.devices d.id d }, ?_⟩
        simp [upsert_device, hda, hst1, hasKey_setKey_self]
      · simp [upsert_area, hp, hk] at hok
  · intro st ar pid hpp hno
    exact ⟨"parent area not found: " ++ toString pid,
      by simp [upsert_area, hpp, hno]⟩
  · intro st en hno
    exact ⟨"device not found for entity: " ++ toString en.device_id,
      by simp [upsert_entity, hno]⟩
  · intro st s hno
    exact ⟨"entity not found: " ++ toString s.entity_id,
      by simp [set_entity_state, hno]⟩

/-- A device referencing area 7. -/
def c7Device : Device :=
  { id := 9, name := "plug", adapter := "mqtt", manufacturer := none,
    model := none, sw_version := none, hw_version := none, area := some 7,
    metadata := [] }

/-- An area (id 7) whose parent is area 3. -/
def c7ChildArea : Area := { id := 7, name := "child", parent := some 3 }

/-- An area (id 3) already present so `upsert_area` of the child succeeds. -/
def c7BaseArea : Area := { id := 3, name := "base", parent := some 3 }

/-- Storage already holding area 3. -/
def baseAreaSt : StorageState := ⟨[(3, c7BaseArea)], [], [], []⟩

/-- `baseAreaSt` after `upsert_area` of `c7ChildArea`. -/
def childAreaSt : StorageState :=
  ⟨[(3, c7BaseArea), (7, c7ChildArea)], [], [], []⟩

/-- C7 witness: concrete runs of every conjunct.  On empty storage the writes
fail; after inserting area 7 (child of the pre-existing area 3), the device
referencing area 7 upserts fine. -/
theorem C7_referential_integrity_witness :
    (∃ m, upsert_device emptyStorage c7Device = .err emptyStorage m)
    ∧ (∃ st2, upsert_device childAreaSt c7Device = .ok st2)
    ∧ (∃ m, upsert_area emptyStorage c7ChildArea = .err emptyStorage m)
    ∧ (∃ m, upsert_entity emptyStorage demoEntity = .err emptyStorage m)
    ∧ (∃ m, set_entity_state emptyStorage c5sOld = .err emptyStorage m) := by
  refine ⟨?_, ?_, ?_, ?_, ?_⟩
  · exact C7_referential_integrity.1 emptyStorage c7Device 7 rfl rfl
  · exact C7_referential_integrity.2.1 baseAreaSt childAreaSt c7ChildArea
      c7Device rfl rfl
  · exact C7_referential_integrity.2.2.1 emptyStorage c7ChildArea 3 rfl rfl
  · exact C7_referential_integrity.2.2.2.1 emptyStorage demoEntity rfl
  · exact C7_referential_integrity.2.2.2.2 emptyStorage c5sOld rfl

end Krypin

namespace Krypin

/-! ## C8 -/

/-- C8: every capability `validate` rejects a command whose required feature
bit is absent from the description's bitmask — for each light, switch, HVAC
and robot-vacuum command variant — and HVAC `SetTargetTemperature` is also
rejected below `min_temp` or above `max_temp` when those bounds are present. -/
theorem C8_validate_rejects :
    (∀ (d : LightDescription) (b : Bool),
        containsBits d.features LIGHT_ONOFF = false →
        ∃ m, d.validate (.setPower b) = .error m)
    ∧ (∀ d : LightDescription,
        containsBits d.features LIGHT_ONOFF = false →
        ∃ m, d.validate .toggle = .error m)
    ∧ (∀ (d : LightDescription) (level : Nat) (t : Option Nat),
        containsBits d.features LIGHT_DIMMABLE = false →
        ∃ m, d.validate (.setBrightness level t) = .error m)
    ∧ (∀ (d : LightDescription) (mireds : Nat) (t : Option Nat),
        containsBits d.features LIGHT_COLOR_TEMP = false →
        ∃ m, d.validate (.setColorTemp mireds t) = .error m)
    ∧ (∀ (d : LightDescription) (rgb : Rgb) (t : Option Nat),
        containsBits d.features LIGHT_RGB = false →
        ∃ m, d.validate (.setRgb rgb t) = .error m)
    ∧ (∀ (d : SwitchDescription) (b : Bool),
        containsBits d.features SWITCH_ONOFF = false →
        ∃ m, d.validate (.set b) = .error m)
    ∧ (∀ d : SwitchDescription,
        containsBits d.features SWITCH_TOGGLE = false →
        ∃ m, d.validate .toggle = .error m)
    ∧ (∀ (d : HvacDescription) (mode : HvacMode),
        containsBits d.features HVAC_MODES = false →
        ∃ m, d.validate (.setMode mode) = .error m)
    ∧ (∀ d : HvacDescription,
        containsBits d.features HVAC_ONOFF = false →
        ∃ m, d.validate (.setMode .off) = .error m)
    ∧ (∀ (d : HvacDescription) (temp : ℚ),
        containsBits d.features HVAC_TARGET_TEMPERATURE = false →
        ∃ m, d.validate (.setTargetTemperature temp) = .error m)
    ∧ (∀ (d : HvacDescription) (fm : HvacFanMode),
        containsBits d.features HVAC_FAN_MODES = false →
        ∃ m, d.validate (.setFanMode fm) = .error m)
    ∧ (∀ (d : HvacDescription) (temp lo : ℚ),
        d.min_temp = some lo → temp < lo →
        ∃ m, d.validate (.setTargetTemperature temp) = .error m)
    ∧ (∀ (d : HvacDescription) (temp hi : ℚ),
        d.max_temp = some hi → hi < temp →
        ∃ m, d.validate (.setTargetTemperature temp) = .error m)
    ∧ (∀ (d : RobotVacDescription) (c : RobotVacCommand),
        containsBits d.features (robotVacRequires c) = false →
        ∃ m, d.validate c = .error m) := by
  refine ⟨?_, ?_, ?_, ?_, ?_, ?_, ?_, ?_, ?_, ?_, ?_, ?_, ?_, ?_⟩
  · intro d b h
    exact ⟨"on/off unsupported", by simp [LightDescription.validate, h]⟩
  · intro d h
    exact ⟨"on/off unsupported", by simp [LightDescription.validate, h]⟩
  · intro d level t h
    exact ⟨"dimming unsupported", by simp [LightDescription.validate, h]⟩
  · intro d mireds t h
    exact ⟨"color temp unsupported", by simp [LightDescription.validate, h]⟩
  · intro d rgb t h
    exact ⟨"rgb unsupported", by simp [LightDescription.validate, h]⟩
  · intro d b h
    exact ⟨"on/off unsupported", by simp [SwitchDescription.validate, h]⟩
  · intro d h
    exact ⟨"toggle unsupported", by simp [SwitchDescription.validate, h]⟩
  · intro d mode h
    exact ⟨"modes unsupported", by simp [HvacDescription.validate, h]⟩
  · intro d h
    by_cases hM : containsBits d.features HVAC_MODES = true
    · exact ⟨"on/off unsupported", by simp [HvacDescription.validate, hM, h]⟩
    · exact ⟨"modes unsupported", by simp [HvacDescription.validate, hM]⟩
  · intro d temp h
    exact ⟨"temperature unsupported", by simp [HvacDescription.validate, h]⟩
  · intro d fm h
    exact ⟨"fan modes unsupported", by simp [HvacDescription.validate, h]⟩
  · intro d temp lo hlo hlt
    by_cases hT : containsBits d.features HVAC_TARGET_TEMPERATURE = true
    · exact ⟨"temperature below minimum",
        by simp [HvacDescription.validate, hT, hlo, hlt]⟩
    · exact ⟨"temperature unsupported", by simp [HvacDescription.validate, hT]⟩
  · intro d temp hi hhi hlt
    by_cases hT : containsBits d.features HVAC_TARGET_TEMPERATURE = true
    · cases hlo : d.min_temp with
      | none =>
        exact ⟨"temperature above maximum",
          by simp [HvacDescription.validate, hT, hlo, hhi, hlt]⟩
      | some lo =>
        by_cases hbelow : temp < lo
        · exact ⟨"temperature below minimum",
            by simp [HvacDescription.validate, hT, hlo, hbelow]⟩
        · exact ⟨"temperature above maximum",
            by simp [HvacDescription.validate, hT, hlo, hbelow, hhi, hlt]⟩
    · exact ⟨"temperature unsupported", by simp [HvacDescription.validate, hT]⟩
  · intro d c h
    exact ⟨"command unsupported", by simp [RobotVacDescription.validate, h]⟩

/-- A light with no feature bits set. -/
def bareLight : LightDescription := ⟨1, 0, none, none⟩

/-- A switch with no feature bits set. -/
def bareSwitch : SwitchDescription := ⟨1, 0⟩

/-- An HVAC description with no feature bits and no bounds. -/
def bareHvac : HvacDescription := ⟨1, 0, none, none⟩

/-- An HVAC description with target-temperature support and bounds 10..30 °C. -/
def boundedHvac : HvacDescription := ⟨1, 2, some 10, some 30⟩

/-- A robot vacuum with no feature bits set. -/
def bareVac : RobotVacDescription := ⟨1, 0⟩

/-- C8 witness: concrete rejections for every conjunct, on descriptions whose
bitmask misses the required bit and on out-of-bounds target temperatures. -/
theorem C8_validate_rejects_witness :
    (∃ m, bareLight.validate (.setPower true) = .error m)
    ∧ (∃ m, bareLight.validate .toggle = .error m)
    ∧ (∃ m, bareLight.validate (.setBrightness 50 none) = .error m)
    ∧ (∃ m, bareLight.validate (.setColorTemp 300 none) = .error m)
    ∧ (∃ m, bareLight.validate (.setRgb ⟨1, 2, 3⟩ none) = .error m)
    ∧ (∃ m, bareSwitch.validate (.set true) = .error m)
    ∧ (∃ m, bareSwitch.validate .toggle = .error m)
    ∧ (∃ m, bareHvac.validate (.setMode .heat) = .error m)
    ∧ (∃ m, bareHvac.validate (.setMode .off) = .error m)
    ∧ (∃ m, bareHvac.validate (.setTargetTemperature 20) = .error m)
    ∧ (∃ m, bareHvac.validate (.setFanMode .auto) = .error m)
    ∧ (∃ m, boundedHvac.validate (.setTargetTemperature 5) = .error m)
    ∧ (∃ m, boundedHvac.validate (.setTargetTemperature 40) = .error m)
    ∧ (∃ m, bareVac.validate .start = .error m) := by
  refine ⟨?_, ?_, ?_, ?_, ?_, ?_, ?_, ?_, ?_, ?_, ?_, ?_, ?_, ?_⟩
  · exact C8_validate_rejects.1 bareLight true rfl
  · exact C8_validate_rejects.2.1 bareLight rfl
  · exact C8_validate_rejects.2.2.1 bareLight 50 none rfl
  · exact C8_validate_rejects.2.2.2.1 bareLight 300 none rfl
  · exact C8_validate_rejects.2.2.2.2.1 bareLight ⟨1, 2, 3⟩ none rfl
  · exact C8_validate_rejects.2.2.2.2.2.1 bareSwitch true rfl
  · exact C8_validate_rejects.2.2.2.2.2.2.1 bareSwitch rfl
  · exact C8_validate_rejects.2.2.2.2.2.2.2.1 bareHvac .heat rfl
  · exact C8_validate_rejects.2.2.2.2.2.2.2.2.1 bareHvac rfl
  · exact C8_validate_rejects.2.2.2.2.2.2.2.2.2.1 bareHvac 20 rfl
  · exact C8_validate_rejects.2.2.2.2.2.2.2.2.2.2.1 bareHvac .auto rfl
  · exact C8_validate_rejects.2.2.2.2.2.2.2.2.2.2.2.1 boundedHvac 5 10 rfl
      (by norm_num)
  · exact C8_validate_rejects.2.2.2.2.2.2.2.2.2.2.2.2.1 boundedHvac 40 30 rfl
      (by norm_num)
  · exact C8_validate_rejects.2.2.2.2.2.2.2.2.2.2.2.2.2 bareVac .start rfl

end Krypin

namespace Krypin

/-! ## C9 -/

/-- Lift a light command back from the JSON form of its canonical envelope,
exactly as an adapter does with the received bytes. -/
def lightRoundtrip (c : LightCommand) : Except String LightCommand :=
  lightCommandFromJson (CommandSet.toJson (lightCommandToCommandSet c))

/-- Same round trip for switch commands. -/
def switchRoundtrip (c : SwitchCommand) : Except String SwitchCommand :=
  switchCommandFromJson (CommandSet.toJson (switchCommandToCommandSet c))

/-- Same round trip for robot-vacuum commands. -/
def robotVacRoundtrip (c : RobotVacCommand) : Except String RobotVacCommand :=
  robotVacCommandFromJson (CommandSet.toJson (robotVacCommandToCommandSet c))

/-- C9: counterexample.  `SetBrightness { level: 200 }` is a representable
light command (`Brightness` is a `u8`), but the mapper clamps the parsed
level with `.min(100)`, so the round trip returns level 100, not 200. -/
theorem C9_roundtrip_cex :
    lightRoundtrip (.setBrightness 200 none) = .ok (.setBrightness 100 none)
    ∧ LightCommand.setBrightness 100 none ≠ .setBrightness 200 none :=
  ⟨rfl, by decide⟩

/-- The Rust integer ranges of a light command's fields (`u8` brightness and
rgb, `u16` mireds, `u32` transition), plus the documented normalized
brightness range 0..=100 — the restriction the counterexample forces. -/
def LightCommand.inRange : LightCommand → Prop
  | .setPower _ => True
  | .toggle => True
  | .setBrightness level t => level ≤ 100 ∧ ∀ n ∈ t, n < 2 ^ 32
  | .setColorTemp mireds t => mireds < 2 ^ 16 ∧ ∀ n ∈ t, n < 2 ^ 32
  | .setRgb rgb t =>
    rgb.r < 2 ^ 8 ∧ rgb.g < 2 ^ 8 ∧ rgb.b < 2 ^ 8 ∧ ∀ n ∈ t, n < 2 ^ 32

/-- C9 (amended): serializing a typed capability command to its canonical
envelope and lifting it back through the domain mapper returns the same
command, for every switch and robot-vacuum command and for every light
command within its machine ranges whose brightness does not exceed the
normalized maximum 100 (above 100 the mapper clamps, per the
counterexample). -/
theorem C9_roundtrip_amended :
    (∀ c : LightCommand, c.inRange → lightRoundtrip c = .ok c)
    ∧ (∀ c : SwitchCommand, switchRoundtrip c = .ok c)
    ∧ (∀ c : RobotVacCommand, robotVacRoundtrip c = .ok c) := by
  refine ⟨?_, ?_, ?_⟩
  · intro c hc
    cases c with
    | setPower b => rfl
    | toggle => rfl
    | setBrightness level t =>
      obtain ⟨h100, ht⟩ := hc
      have h255 : level ≤ 255 := le_trans h100 (by norm_num)
      cases t with
      | none =>
        simp [lightRoundtrip, lightCommandFromJson, CommandSet.toJson,
          lightCommandToCommandSet, jsonGet, objGet, jsonOfOptNat, Json.asStr,
          Json.asObj, Json.asBool, Json.asU64, lightObjParse, h255,
          Nat.min_eq_left h100]
      | some n =>
        have hn : n % 2 ^ 32 = n := Nat.mod_eq_of_lt (ht n rfl)
        have hn32 : n < 2 ^ 32 := ht n rfl
        simp [lightRoundtrip, lightCommandFromJson, CommandSet.toJson,
          lightCommandToCommandSet, jsonGet, objGet, jsonOfOptNat, Json.asStr,
          Json.asObj, Json.asBool, Json.asU64, lightObjParse, h255,
          Nat.min_eq_left h100, hn]
        omega
    | setColorTemp mireds t =>
      obtain ⟨h16, ht⟩ := hc
      have hm : mireds % 2 ^ 16 = mireds := Nat.mod_eq_of_lt h16
      cases t with
      | none =>
        simp [lightRoundtrip, lightCommandFromJson, CommandSet.toJson,
          lightCommandToCommandSet, jsonGet, objGet, jsonOfOptNat, Json.asStr,
          Json.asObj, Json.asBool, Json.asU64, lightObjParse, hm]
        omega
      | some n =>
        have hn : n % 2 ^ 32 = n := Nat.mod_eq_of_lt (ht n rfl)
        have hn32 : n < 2 ^ 32 := ht n rfl
        simp [lightRoundtrip, lightCommandFromJson, CommandSet.toJson,
          lightCommandToCommandSet, jsonGet, objGet, jsonOfOptNat, Json.asStr,
          Json.asObj, Json.asBool, Json.asU64, lightObjParse, hm, hn]
        omega
    | setRgb rgb t =>
      obtain ⟨hr, hg, hb, ht⟩ := hc
      obtain ⟨r, g, b⟩ := rgb
      have hr2 : r < 2 ^ 8 := hr
      have hg2 : g < 2 ^ 8 := hg
      have hb2 : b < 2 ^ 8 := hb
      have hr' : r % 2 ^ 8 = r := Nat.mod_eq_of_lt hr
      have hg' : g % 2 ^ 8 = g := Nat.mod_eq_of_lt hg
      have hb' : b % 2 ^ 8 = b := Nat.mod_eq_of_lt hb
      cases t with
      | none =>
        simp [lightRoundtrip, lightCommandFromJson, CommandSet.toJson,
          lightCommandToCommandSet, jsonGet, objGet, jsonOfOptNat, Json.asStr,
          Json.asObj, Json.asBool, Json.asU64, Json.asArr, lightObjParse,
          hr', hg', hb']
        omega
      | some n =>
        have hn : n % 2 ^ 32 = n := Nat.mod_eq_of_lt (ht n rfl)
        have hn32 : n < 2 ^ 32 := ht n rfl
        simp [lightRoundtrip, lightCommandFromJson, CommandSet.toJson,
          lightCommandToCommandSet, jsonGet, objGet, jsonOfOptNat, Json.asStr,
          Json.asObj, Json.asBool, Json.asU64, Json.asArr, lightObjParse,
          hr', hg', hb', hn]
        omega
  · intro c
    cases c with
    | set b => rfl
    | toggle => rfl
  · intro c
    cases c <;> rfl

/-- C9 (amended) witness: the end-to-end scenario's brightness command
(level 80, 500 ms transition) is in range and round-trips unchanged. -/
theorem C9_roundtrip_amended_witness :
    LightCommand.inRange (.setBrightness 80 (some 500))
    ∧ lightRoundtrip (.setBrightness 80 (some 500)) = .ok (.setBrightness 80 (some 500)) := by
  have hin : LightCommand.inRange (.setBrightness 80 (some 500)) := by
    refine ⟨by norm_num, ?_⟩
    intro n hn
    simp only [Option.mem_def, Option.some.injEq] at hn
    subst hn
    norm_num
  exact ⟨hin, C9_roundtrip_amended.1 (.setBrightness 80 (some 500)) hin⟩

end Krypin
